import Mathlib

/-!
# Verification of `store/postgres/src/block_range.rs`

A shallow embedding of the block-range utilities of the graph-node
postgres store, together with theorems checking the natural-language
specification against the code.

The embedding covers:
* the block-number domain and its sentinel `BLOCK_NUMBER_MAX`;
* the `BlockRange` validity-interval type built from Rust's
  `Bound<BlockNumber>` pairs, its construction from `RangeFrom`, and its
  serialization to the postgres range wire format;
* `block_number`, the provenance resolver, with the Rust `panic!` modelled
  as `Option.none`;
* `BlockRangeContainsClause::walk_ast`, the predicate compiler, modelled
  as a pure function from the clause, the process-wide toggle and an
  `AstPass` accumulator to the sequence of emitted query-builder
  operations;
* the SQL evaluation semantics (three-valued logic, postgres `int4range`
  canonicalization) needed to speak about the truth value of the
  compiled predicate.
-/

/- Rust `type BlockNumber = i32` from `graph::prelude` is embedded
directly as `Int`: the values are unbounded integers, and the `i32`
machine domain shows up as explicit range hypotheses where it matters. -/

/-- Rust `graph::prelude::BLOCK_NUMBER_MAX = i32::MAX`. The in-file test
`block_number_max_is_i32_max` pins it to `2147483647`. -/
def BLOCK_NUMBER_MAX : Int := 2147483647

/-- The name of the column in which the block range is stored
(`BLOCK_RANGE_COLUMN` in the source). -/
def BLOCK_RANGE_COLUMN : String := "block_range"

/-- Constant `BLOCK_UNVERSIONED`: the reserved lower bound `-1` marking entities
that are not subject to temporal versioning. -/
def BLOCK_UNVERSIONED : Int := -1

/-- Rust `std::ops::Bound<BlockNumber>`: one end of a validity interval. -/
inductive Bnd
  | included (n : Int)
  | excluded (n : Int)
  | unbounded
deriving DecidableEq, Repr

/-- Rust `struct BlockRange(Bound<BlockNumber>, Bound<BlockNumber>)`: the range
of blocks for which an entity version is valid. Field `l` is the Rust
tuple field `.0` (lower bound), `u` is `.1` (upper bound). -/
structure BlockRange where
  l : Bnd
  u : Bnd
deriving DecidableEq, Repr

/-- Rust `fn clone_bound(bound: Bound<&BlockNumber>) -> Bound<BlockNumber>`:
clones a borrowed bound; on the embedded values this is the identity on
each constructor, written out to mirror the Rust `match`. -/
def clone_bound (bound : Bnd) : Bnd :=
  match bound with
  | .included nr => .included nr
  | .excluded nr => .excluded nr
  | .unbounded => .unbounded

/-- Rust `std::ops::RangeFrom<BlockNumber>` (`start..`). -/
structure RangeFromBlock where
  start : Int
deriving DecidableEq, Repr

/-- Method `RangeFrom::start_bound` returns `Included(&self.start)` (Rust std). -/
def RangeFromBlock.start_bound (range : RangeFromBlock) : Bnd :=
  .included range.start

/-- Method `RangeFrom::end_bound` returns `Unbounded` (Rust std). -/
def RangeFromBlock.end_bound (_ : RangeFromBlock) : Bnd :=
  .unbounded

/-- Rust `impl From<RangeFrom<BlockNumber>> for BlockRange`: builds the
two-bound representation by cloning the start bound and the (unbounded)
end bound. -/
def BlockRange.fromRangeFrom (range : RangeFromBlock) : BlockRange :=
  { l := clone_bound range.start_bound
    u := clone_bound range.end_bound }

/-- Modelled from the spec: the provenance pointer inside a
`HistoryEvent` (defined in `history_event.rs`, which is not part of the
sources at hand) carries the block coordinate as an unsigned 64-bit
value. We embed `u64` as `Nat`; the `< 2^64` machine bound is irrelevant
to the comparisons performed on it. -/
structure BlockPtr where
  number : Nat
deriving DecidableEq, Repr

/-- Modelled from the spec: the externally supplied History context,
exposing the provenance pointer `block_ptr`. -/
structure HistoryEvent where
  block_ptr : BlockPtr
deriving DecidableEq, Repr

/-- Rust `fn block_number(history_event: &HistoryEvent) -> BlockNumber`:
returns the pointer's coordinate narrowed to `i32` when
`block_ptr.number < std::i32::MAX as u64` (that is, `< 2147483647`), and
otherwise panics. The panic is modelled as `none`. -/
def block_number (history_event : HistoryEvent) : Option Int :=
  let block_ptr := history_event.block_ptr
  if block_ptr.number < 2147483647 then
    some ((block_ptr.number : Int))
  else
    none

/-- Toggle `DISABLE_BRIN_BLOCK_RANGE`: the lazily initialized process-wide
toggle, `env::var("DISABLE_BRIN_BLOCK_RANGE").ok().is_some()`. The
environment lookup result is passed explicitly: `some s` when the
variable is set to the string `s` (possibly empty), `none` when unset. -/
def DISABLE_BRIN_BLOCK_RANGE (env : Option String) : Bool :=
  env.isSome

/-- One operation recorded by the diesel `AstPass` while a query fragment
is walked: a literal SQL snippet, a quoted identifier, a bound integer
parameter, or the marking of the query as not safe to cache as a
prepared statement (`unsafe_to_cache_prepared`). -/
inductive SqlItem
  | sql (s : String)
  | identifier (s : String)
  | bind (n : Int)
  | uncachePrepared
deriving DecidableEq, Repr

/-- The `AstPass` accumulator: the sequence of operations performed so
far, in order. -/
structure AstPass where
  items : List SqlItem
deriving DecidableEq, Repr

/-- Models `AstPass::unsafe_to_cache_prepared`. -/
def AstPass.uncachePrepared (out : AstPass) : AstPass :=
  ⟨out.items ++ [.uncachePrepared]⟩

/-- Models `AstPass::push_sql`. -/
def AstPass.push_sql (out : AstPass) (s : String) : AstPass :=
  ⟨out.items ++ [.sql s]⟩

/-- Models `AstPass::push_identifier` (diesel quotes the identifier; we
keep it as a distinct item kind). -/
def AstPass.push_identifier (out : AstPass) (s : String) : AstPass :=
  ⟨out.items ++ [.identifier s]⟩

/-- Models `AstPass::push_bind_param::<Integer, _>`. -/
def AstPass.push_bind_param (out : AstPass) (n : Int) : AstPass :=
  ⟨out.items ++ [.bind n]⟩

/-- Rust `struct BlockRangeContainsClause<'a>` with fields `table_prefix: &'a str` and `block:
BlockNumber }`. The field `table_pfx` embeds `table_prefix`. -/
structure BlockRangeContainsClause where
  table_pfx : String
  block : Int
deriving DecidableEq, Repr

/-- Rust `impl QueryFragment<Pg> for BlockRangeContainsClause`: `walk_ast`,
with the process-wide toggle passed explicitly as `disable_brin` and the
`AstPass` threaded through each `out.…` call in source order. -/
def BlockRangeContainsClause.walk_ast (self : BlockRangeContainsClause)
    (disable_brin : Bool) (out : AstPass) : AstPass :=
  let out := out.uncachePrepared
  let out := out.push_sql self.table_pfx
  let out := out.push_identifier BLOCK_RANGE_COLUMN
  let out := out.push_sql (" @> /* contains */ ")
  let out := out.push_bind_param self.block
  if disable_brin = false ∧ self.block < BLOCK_NUMBER_MAX then
    let out := out.push_sql (" and coalesce(upper(")
    let out := out.push_identifier BLOCK_RANGE_COLUMN
    let out := out.push_sql ("), 2147483647) > ")
    let out := out.push_bind_param self.block
    let out := out.push_sql (" and lower(")
    let out := out.push_identifier BLOCK_RANGE_COLUMN
    let out := out.push_sql (") <= ")
    out.push_bind_param self.block
  else
    out

/-- The operation sequence emitted by compiling the containment clause
for a given table prefix, target block and toggle state, starting from
an empty `AstPass`. -/
def compiledItems (pfx : String) (block : Int) (disable_brin : Bool) :
    List SqlItem :=
  (BlockRangeContainsClause.walk_ast ⟨pfx, block⟩ disable_brin ⟨[]⟩).items

/-- The primary point-containment clause as emitted:
`{pfx}"block_range" @> /* contains */ ${block}`. -/
def primaryClauseItems (pfx : String) (block : Int) : List SqlItem :=
  [.sql pfx, .identifier BLOCK_RANGE_COLUMN, .sql (" @> /* contains */ "),
   .bind block]

/-- The redundant scalar-bound clause as emitted:
` and coalesce(upper("block_range"), 2147483647) > ${block} and
lower("block_range") <= ${block}`. -/
def redundantClauseItems (block : Int) : List SqlItem :=
  [.sql (" and coalesce(upper("), .identifier BLOCK_RANGE_COLUMN,
   .sql ("), 2147483647) > "), .bind block,
   .sql (" and lower("), .identifier BLOCK_RANGE_COLUMN,
   .sql (") <= "), .bind block]

/-- The sequence of bound parameters in an emitted operation sequence. -/
def bindsOf (items : List SqlItem) : List Int :=
  items.filterMap fun item =>
    match item with
    | .bind n => some n
    | _ => none

/-- Characterization of `walk_ast` on an empty `AstPass`: the
cache-safety marking, then the primary clause, then the redundant clause
exactly under the source's emission condition. -/
theorem compiledItems_eq (pfx : String) (block : Int)
    (disable_brin : Bool) :
    compiledItems pfx block disable_brin =
      SqlItem.uncachePrepared :: primaryClauseItems pfx block ++
        (if disable_brin = false ∧ block < BLOCK_NUMBER_MAX then
          redundantClauseItems block
        else []) := by
  by_cases h : disable_brin = false ∧ block < BLOCK_NUMBER_MAX <;>
    simp [compiledItems, BlockRangeContainsClause.walk_ast,
      AstPass.uncachePrepared, AstPass.push_sql, AstPass.push_identifier,
      AstPass.push_bind_param, primaryClauseItems, redundantClauseItems, h]

/-!
## SQL evaluation semantics

The compiled predicate is evaluated by the storage engine, not by this
crate. Modelled from the spec: the backing store is postgres, the column
has the native bounded integer range type (`int4range`), the containment
operator is `@>` and the scalar projections are `upper`/`lower`
(spec §6 "Containment operator & indexes", §4.2). SQL comparisons follow
three-valued logic: `Option Bool` with `none` for the SQL NULL. -/

/-- SQL `AND` in three-valued logic: `false` dominates, otherwise NULL
propagates. -/
def sqlAnd (a b : Option Bool) : Option Bool :=
  match a, b with
  | some false, _ => some false
  | _, some false => some false
  | some true, some true => some true
  | _, _ => none

/-- SQL `coalesce` of a possibly NULL value with a literal default. -/
def sqlCoalesce (a : Option Int) (dflt : Int) : Int :=
  match a with
  | some v => v
  | none => dflt

/-- SQL `x > b` where `x` may be NULL. -/
def sqlGt (a : Option Int) (b : Int) : Option Bool :=
  a.map fun v => decide (v > b)

/-- SQL `x <= b` where `x` may be NULL. -/
def sqlLe (a : Option Int) (b : Int) : Option Bool :=
  a.map fun v => decide (v ≤ b)

/-- Does the lower bound of a range admit the value `b`?  Mirrors range
membership on the lower end: `Included l` admits `b ≥ l`, `Excluded l`
admits `b > l`, `Unbounded` admits everything. -/
def lowerAdmits (bound : Bnd) (b : Int) : Bool :=
  match bound with
  | .included l => decide (l ≤ b)
  | .excluded l => decide (l < b)
  | .unbounded => true

/-- Does the upper bound of a range admit the value `b`? -/
def upperAdmits (bound : Bnd) (b : Int) : Bool :=
  match bound with
  | .included u => decide (b ≤ u)
  | .excluded u => decide (b < u)
  | .unbounded => true

/-- Postgres `range @> b`: the point is admitted by both bounds. (An
empty range admits no point, so no separate case is needed.) -/
def rangeContains (r : BlockRange) (b : Int) : Bool :=
  lowerAdmits r.l b && upperAdmits r.u b

/-- Postgres `lower(range)` on the stored (canonicalized) `int4range`:
discrete ranges are canonicalized to inclusive lower bounds, so a stored
`Excluded l` reads back as `l + 1`; an unbounded lower bound reads back
as NULL. -/
def sqlLower (r : BlockRange) : Option Int :=
  match r.l with
  | .included l => some l
  | .excluded l => some (l + 1)
  | .unbounded => none

/-- Postgres `upper(range)` on the stored (canonicalized) `int4range`:
canonicalization makes upper bounds exclusive, so a stored `Included u`
reads back as `u + 1`; an unbounded upper bound reads back as NULL. -/
def sqlUpper (r : BlockRange) : Option Int :=
  match r.u with
  | .included u => some (u + 1)
  | .excluded u => some u
  | .unbounded => none

/-- Three-valued truth value of the full compiled predicate against a
stored range `r` at target `block`: the primary containment clause,
conjoined with the redundant scalar-bound clause exactly when `walk_ast`
emits it (same condition as in `BlockRangeContainsClause.walk_ast`). -/
def compiledPredicateEval (disable_brin : Bool) (r : BlockRange)
    (block : Int) : Option Bool :=
  sqlAnd (some (rangeContains r block))
    (if disable_brin = false ∧ block < BLOCK_NUMBER_MAX then
      sqlAnd (sqlGt (some (sqlCoalesce (sqlUpper r) 2147483647)) block)
        (sqlLe (sqlLower r) block)
    else some true)

/-- A SQL `WHERE` clause selects a row exactly when its condition
evaluates to `true` (NULL is treated as not selected). -/
def rowSelected (v : Option Bool) : Bool :=
  v = some true

/-!
## Serialization to the postgres range wire format

Modelled from the spec: `ToSql<Range<Integer>, Pg> for BlockRange`
delegates to diesel's implementation for `(Bound<i32>, Bound<i32>)`,
which is not part of the sources at hand. Per spec §4.1/§6 it writes the
backing store's native bounded-range representation with bound-kind
fidelity: one flags byte (`0x02` lower-inclusive, `0x04`
upper-inclusive, `0x08` lower-infinite, `0x10` upper-infinite, `0x01`
empty) followed by, for each finite bound, a 4-byte length header and
the bound value as a big-endian two's-complement 32-bit integer. -/

/-- Big-endian two's-complement bytes of a 32-bit integer. -/
def int32be (n : Int) : List Nat :=
  [(n % 4294967296).toNat / 16777216 % 256, (n % 4294967296).toNat / 65536 % 256,
   (n % 4294967296).toNat / 256 % 256, (n % 4294967296).toNat % 256]

/-- Wire bytes of one bound (length header plus value), empty for an
unbounded end. -/
def boundBytes (bound : Bnd) : List Nat :=
  match bound with
  | .included n => [0, 0, 0, 4] ++ int32be n
  | .excluded n => [0, 0, 0, 4] ++ int32be n
  | .unbounded => []

/-- The flags byte describing the two bound kinds. -/
def rangeFlags (r : BlockRange) : Nat :=
  (match r.l with
   | .included _ => 2
   | .excluded _ => 0
   | .unbounded => 8) +
  (match r.u with
   | .included _ => 4
   | .excluded _ => 0
   | .unbounded => 16)

/-- Method `BlockRange::to_sql`: serializes the pair `(self.0, self.1)` to the
range wire format. -/
def BlockRange.to_sql (r : BlockRange) : List Nat :=
  rangeFlags r :: (boundBytes r.l ++ boundBytes r.u)

/-- Reads back a big-endian two's-complement 32-bit integer. -/
def readInt32 (bytes : List Nat) : Option (Int × List Nat) :=
  match bytes with
  | a :: b :: c :: d :: rest =>
    let m := a * 16777216 + b * 65536 + c * 256 + d
    some (if m ≥ 2147483648 then (m : Int) - 4294967296 else (m : Int), rest)
  | _ => none

/-- Reads back one bound given its kind bits from the flags byte. -/
def readBound (inc inf : Bool) (bytes : List Nat) :
    Option (Bnd × List Nat) :=
  if inf then
    some (.unbounded, bytes)
  else
    match bytes with
    | 0 :: 0 :: 0 :: 4 :: rest =>
      (readInt32 rest).map fun p =>
        ((if inc then .included p.1 else .excluded p.1), p.2)
    | _ => none

/-- Logical re-reading of a serialized range: parses the flags byte and
the two bounds back into a `BlockRange`. Fails on the empty-range flag
and on malformed input. -/
def BlockRange.from_sql (bytes : List Nat) : Option BlockRange :=
  match bytes with
  | [] => none
  | flags :: rest =>
    if flags % 2 = 1 then none
    else
      match readBound (flags / 2 % 2 = 1) (flags / 8 % 2 = 1) rest with
      | none => none
      | some (l, rest1) =>
        match readBound (flags / 4 % 2 = 1) (flags / 16 % 2 = 1) rest1 with
        | none => none
        | some (u, rest2) =>
          if rest2 = [] then some ⟨l, u⟩ else none

/-!
## Theorems
-/

/-- Helper: SQL `AND` of two non-NULL values is their boolean
conjunction. -/
theorem sqlAnd_some_some (x y : Bool) :
    sqlAnd (some x) (some y) = some (x && y) := by
  cases x <;> cases y <;> rfl

/-- C1: the compiled predicate always contains the primary
point-containment clause; it contains the redundant scalar-bound clause
exactly when the toggle is unset and the target is strictly below
`BLOCK_NUMBER_MAX`; at the sentinel target the redundant clause is
omitted regardless of toggle state. -/
theorem walk_ast_clause_structure (pfx : String) (block : Int)
    (disable_brin : Bool) :
    (primaryClauseItems pfx block) <:+: (compiledItems pfx block disable_brin) ∧
    ((redundantClauseItems block) <:+: (compiledItems pfx block disable_brin) ↔
      disable_brin = false ∧ block < BLOCK_NUMBER_MAX) ∧
    compiledItems pfx BLOCK_NUMBER_MAX disable_brin =
      SqlItem.uncachePrepared :: primaryClauseItems pfx BLOCK_NUMBER_MAX := by
  refine ⟨?_, ⟨?_, ?_⟩, ?_⟩
  · rw [compiledItems_eq]
    exact ⟨[SqlItem.uncachePrepared], _, rfl⟩
  · intro hinf
    by_contra hcond
    rw [compiledItems_eq, if_neg hcond] at hinf
    have := hinf.length_le
    simp [primaryClauseItems, redundantClauseItems] at this
  · intro hcond
    rw [compiledItems_eq, if_pos hcond]
    exact ⟨SqlItem.uncachePrepared :: primaryClauseItems pfx block, [], by simp⟩
  · rw [compiledItems_eq, if_neg (by simp [BLOCK_NUMBER_MAX]), List.append_nil]

/-- C9: compiling the containment clause marks the fragment as not
safely cacheable as a prepared plan unconditionally, as the very first
operation, before any SQL or bind parameter is emitted. -/
theorem walk_ast_uncache_first (pfx : String) (block : Int)
    (disable_brin : Bool) :
    (compiledItems pfx block disable_brin).head? =
      some SqlItem.uncachePrepared := by
  rw [compiledItems_eq]; rfl

/-- C10: predicate compilation is deterministic — equal inputs produce
the identical operation sequence (hence identical SQL text and bind
sequence) — and every bound parameter equals the target block. -/
theorem walk_ast_deterministic (pfx1 pfx2 : String) (b1 b2 : Int)
    (d1 d2 : Bool) (hp : pfx1 = pfx2) (hb : b1 = b2) (hd : d1 = d2) :
    compiledItems pfx1 b1 d1 = compiledItems pfx2 b2 d2 ∧
    ∀ x ∈ bindsOf (compiledItems pfx1 b1 d1), x = b1 := by
  subst hp hb hd
  refine ⟨rfl, ?_⟩
  rw [compiledItems_eq]
  by_cases h : d1 = false ∧ b1 < BLOCK_NUMBER_MAX <;>
    simp [h, bindsOf, primaryClauseItems, redundantClauseItems]

/-- Witness for C10 at a concrete input. -/
theorem walk_ast_deterministic_witness :
    compiledItems "c." 5 false = compiledItems "c." 5 false ∧
    ∀ x ∈ bindsOf (compiledItems "c." 5 false), x = 5 :=
  walk_ast_deterministic "c." "c." 5 5 false false rfl rfl rfl

/-- C2 counterexample: the claim locates the abort boundary at `2^31`,
but the code rejects every coordinate from `i32::MAX = 2147483647 =
2^31 - 1` upward: input `2147483647` is strictly below `2^31`, yet the
resolver aborts on it. -/
theorem block_number_sentinel_aborts :
    2147483647 < 2 ^ 31 ∧ block_number ⟨⟨2147483647⟩⟩ = none := by
  decide

/-- C2 as amended: the resolver narrows and returns the coordinate
exactly when it is strictly below `i32::MAX = 2147483647` (that is,
`< 2^31 - 1`), and aborts on every coordinate `≥ 2147483647`. -/
theorem block_number_boundary (ev : HistoryEvent) :
    (ev.block_ptr.number < 2147483647 →
      block_number ev = some ((ev.block_ptr.number : Int))) ∧
    (2147483647 ≤ ev.block_ptr.number → block_number ev = none) := by
  constructor <;> intro h
  · simp [block_number, h]
  · simp only [block_number]
    rw [if_neg (by omega)]

/-- Witness for the amended C2: coordinate `100` resolves to `100` and
coordinate `4294967295` aborts. -/
theorem block_number_boundary_witness :
    block_number ⟨⟨100⟩⟩ = some ((100 : Int)) ∧
    block_number ⟨⟨4294967295⟩⟩ = none :=
  ⟨(block_number_boundary ⟨⟨100⟩⟩).1 (by decide),
   (block_number_boundary ⟨⟨4294967295⟩⟩).2 (by decide)⟩

/-- C8: whenever the resolver returns normally, the returned coordinate
equals the input coordinate, is non-negative and is strictly below the
sentinel `BLOCK_NUMBER_MAX`; the sentinel itself is never produced. -/
theorem block_number_range (ev : HistoryEvent) (n : Int)
    (h : block_number ev = some n) :
    n = (ev.block_ptr.number : Int) ∧ 0 ≤ n ∧ n < BLOCK_NUMBER_MAX := by
  simp only [block_number] at h
  split at h
  next hc =>
    cases h
    refine ⟨rfl, Int.natCast_nonneg _, ?_⟩
    simp only [BLOCK_NUMBER_MAX]
    exact_mod_cast hc
  next => cases h

/-- Witness for C8 at coordinate `100`. -/
theorem block_number_range_witness :
    (100 : Int) = ((100 : Nat) : Int) ∧ 0 ≤ (100 : Int) ∧
      (100 : Int) < BLOCK_NUMBER_MAX :=
  block_number_range ⟨⟨100⟩⟩ 100 (by decide)

/-- C4: for an interval constructed as "valid from N onward", the
primary containment predicate holds exactly when the target is at least
`N`: true for every target `≥ N`, false for every target `< N`. -/
theorem fromRangeFrom_contains (n b : Int) :
    rangeContains (BlockRange.fromRangeFrom ⟨n⟩) b = true ↔ n ≤ b := by
  simp [rangeContains, BlockRange.fromRangeFrom, clone_bound,
    RangeFromBlock.start_bound, RangeFromBlock.end_bound, lowerAdmits,
    upperAdmits]

/-- Helper: for an interval whose lower bound is present, the full
compiled predicate (with or without the redundant clause) evaluates to
exactly the non-NULL truth value of the primary containment clause. -/
theorem compiledPredicateEval_lower_bounded (disable_brin : Bool)
    (r : BlockRange) (b : Int) (hl : r.l ≠ Bnd.unbounded) :
    compiledPredicateEval disable_brin r b = some (rangeContains r b) := by
  obtain ⟨rl, ru⟩ := r
  unfold compiledPredicateEval
  by_cases hd : disable_brin = false ∧ b < BLOCK_NUMBER_MAX
  · rw [if_pos hd]
    have hmax : b < 2147483647 := by
      have := hd.2; simpa [BLOCK_NUMBER_MAX] using this
    cases rl with
    | unbounded => exact absurd rfl hl
    | included l =>
      cases ru <;>
        · simp only [rangeContains, lowerAdmits, upperAdmits, sqlLower,
            sqlUpper, sqlCoalesce, sqlGt, sqlLe, Option.map_some',
            sqlAnd_some_some]
          congr 1
          rw [Bool.eq_iff_iff]
          simp only [Bool.and_eq_true, decide_eq_true_eq, Bool.and_true,
            Bool.true_and]
          omega
    | excluded l =>
      cases ru <;>
        · simp only [rangeContains, lowerAdmits, upperAdmits, sqlLower,
            sqlUpper, sqlCoalesce, sqlGt, sqlLe, Option.map_some',
            sqlAnd_some_some]
          congr 1
          rw [Bool.eq_iff_iff]
          simp only [Bool.and_eq_true, decide_eq_true_eq, Bool.and_true,
            Bool.true_and]
          omega
  · rw [if_neg hd, sqlAnd_some_some, Bool.and_true]

/-- C3 counterexample: for the interval with both ends unbounded and
target `0` (strictly below the sentinel, toggle unset), the primary
clause alone selects the row, but the full predicate with the redundant
clause evaluates to SQL NULL (`lower` of the range is NULL), so the row
is not selected: the redundant clause changes the result. -/
theorem redundant_clause_not_redundant_unbounded_lower :
    (0 : Int) < BLOCK_NUMBER_MAX ∧
    rangeContains ⟨Bnd.unbounded, Bnd.unbounded⟩ 0 = true ∧
    compiledPredicateEval false ⟨Bnd.unbounded, Bnd.unbounded⟩ 0 = none := by
  decide

/-- C3 as amended: for every target strictly below the sentinel and
every interval whose lower bound is present (included or excluded, as
every interval constructed by this store is), the compiled predicate
with the redundant clause has the same truth value as the primary
containment clause alone; for an interval with an unbounded lower bound
the appended `lower(column) <= target` comparison is NULL, and the
combined predicate can reject a row the primary clause accepts. -/
theorem redundant_clause_redundant (disable_brin : Bool) (r : BlockRange)
    (b : Int) (_hb : b < BLOCK_NUMBER_MAX)
    (hl : r.l ≠ Bnd.unbounded) :
    compiledPredicateEval disable_brin r b = some (rangeContains r b) :=
  compiledPredicateEval_lower_bounded disable_brin r b hl

/-- Witness for the amended C3 at the interval `[5, 9)` and target `6`. -/
theorem redundant_clause_redundant_witness :
    (6 : Int) < BLOCK_NUMBER_MAX ∧
    compiledPredicateEval false ⟨Bnd.included 5, Bnd.excluded 9⟩ 6 =
      some (rangeContains ⟨Bnd.included 5, Bnd.excluded 9⟩ 6) :=
  ⟨by decide,
   redundant_clause_redundant false ⟨Bnd.included 5, Bnd.excluded 9⟩ 6
     (by decide) (by decide)⟩

/-- C5: for the unversioned interval (lower bound `-1` included, upper
unbounded), the full compiled predicate evaluates true for every
non-negative target block, under either toggle state. -/
theorem unversioned_predicate_true (disable_brin : Bool) (b : Int)
    (h0 : 0 ≤ b) :
    compiledPredicateEval disable_brin
      ⟨Bnd.included BLOCK_UNVERSIONED, Bnd.unbounded⟩ b = some true := by
  rw [compiledPredicateEval_lower_bounded disable_brin _ b (by simp)]
  simp only [rangeContains, lowerAdmits, upperAdmits, BLOCK_UNVERSIONED,
    Bool.and_true, Option.some_inj, decide_eq_true_eq]
  omega

/-- Witness for C5 at targets `0` and `BLOCK_NUMBER_MAX - 1 =
2147483646`, with the toggle both unset and set. -/
theorem unversioned_predicate_true_witness :
    compiledPredicateEval false
      ⟨Bnd.included BLOCK_UNVERSIONED, Bnd.unbounded⟩ 0 = some true ∧
    compiledPredicateEval false
      ⟨Bnd.included BLOCK_UNVERSIONED, Bnd.unbounded⟩ 2147483646 = some true ∧
    compiledPredicateEval true
      ⟨Bnd.included BLOCK_UNVERSIONED, Bnd.unbounded⟩ 2147483646 = some true :=
  ⟨unversioned_predicate_true false 0 (by decide),
   unversioned_predicate_true false 2147483646 (by decide),
   unversioned_predicate_true true 2147483646 (by decide)⟩

/-- C6: presence of the environment setting, with any value including
the empty string, makes the toggle true and removes the redundant
clause from every compiled predicate; absence makes the toggle false,
restoring emission (for targets below the sentinel). -/
theorem disable_env_toggle (s pfx : String) (b : Int) :
    DISABLE_BRIN_BLOCK_RANGE (some s) = true ∧
    DISABLE_BRIN_BLOCK_RANGE none = false ∧
    compiledItems pfx b (DISABLE_BRIN_BLOCK_RANGE (some s)) =
      SqlItem.uncachePrepared :: primaryClauseItems pfx b ∧
    (b < BLOCK_NUMBER_MAX →
      compiledItems pfx b (DISABLE_BRIN_BLOCK_RANGE none) =
        SqlItem.uncachePrepared ::
          (primaryClauseItems pfx b ++ redundantClauseItems b)) := by
  refine ⟨rfl, rfl, ?_, ?_⟩
  · rw [compiledItems_eq, if_neg (by simp [DISABLE_BRIN_BLOCK_RANGE]),
      List.append_nil]
  · intro hb
    rw [compiledItems_eq, if_pos ⟨rfl, hb⟩, List.cons_append]

/-- Witness for C6 with the empty-string value at a concrete input. -/
theorem disable_env_toggle_witness :
    DISABLE_BRIN_BLOCK_RANGE (some "") = true ∧
    DISABLE_BRIN_BLOCK_RANGE none = false ∧
    compiledItems "c." 0 (DISABLE_BRIN_BLOCK_RANGE (some "")) =
      SqlItem.uncachePrepared :: primaryClauseItems "c." 0 ∧
    compiledItems "c." 0 (DISABLE_BRIN_BLOCK_RANGE none) =
      SqlItem.uncachePrepared ::
        (primaryClauseItems "c." 0 ++ redundantClauseItems 0) :=
  ⟨(disable_env_toggle "" "c." 0).1, (disable_env_toggle "" "c." 0).2.1,
   (disable_env_toggle "" "c." 0).2.2.1,
   (disable_env_toggle "" "c." 0).2.2.2 (by decide)⟩

/-- Helper: decoding inverts the big-endian two's-complement encoding
on the 32-bit domain. -/
theorem readInt32_int32be (n : Int) (rest : List Nat)
    (hlo : -2147483648 ≤ n) (hhi : n < 2147483648) :
    readInt32 (int32be n ++ rest) = some (n, rest) := by
  unfold int32be readInt32
  simp only [List.cons_append, List.nil_append]
  have h1 : (n % 4294967296).toNat / 16777216 % 256 * 16777216 +
      (n % 4294967296).toNat / 65536 % 256 * 65536 +
      (n % 4294967296).toNat / 256 % 256 * 256 +
      (n % 4294967296).toNat % 256 = (n % 4294967296).toNat := by
    omega
  rw [h1]
  have h2 : (if (n % 4294967296).toNat ≥ 2147483648 then
      ((n % 4294967296).toNat : Int) - 4294967296
    else ((n % 4294967296).toNat : Int)) = n := by
    split <;> omega
  rw [h2]

/-- C7: for every block coordinate `N` in the domain, constructing the
interval "valid from N onward" yields lower bound included `N` and upper
bound unbounded, and serializing it to the range wire format and
logically re-reading it preserves both bounds exactly. -/
theorem fromRangeFrom_roundtrip (n : Int) (h0 : 0 ≤ n)
    (h1 : n < 2147483648) :
    BlockRange.fromRangeFrom ⟨n⟩ = ⟨Bnd.included n, Bnd.unbounded⟩ ∧
    BlockRange.from_sql (BlockRange.to_sql (BlockRange.fromRangeFrom ⟨n⟩)) =
      some ⟨Bnd.included n, Bnd.unbounded⟩ := by
  have hri : readInt32 (int32be n) = some (n, []) := by
    have h := readInt32_int32be n [] (by omega) (by omega)
    simpa using h
  refine ⟨rfl, ?_⟩
  show BlockRange.from_sql (BlockRange.to_sql ⟨Bnd.included n, Bnd.unbounded⟩) = _
  simp [BlockRange.to_sql, rangeFlags, boundBytes, BlockRange.from_sql,
    readBound, hri]

/-- Witness for C7 at the interval `[1000, ∞)`. -/
theorem fromRangeFrom_roundtrip_witness :
    BlockRange.fromRangeFrom ⟨1000⟩ = ⟨Bnd.included 1000, Bnd.unbounded⟩ ∧
    BlockRange.from_sql (BlockRange.to_sql (BlockRange.fromRangeFrom ⟨1000⟩)) =
      some ⟨Bnd.included 1000, Bnd.unbounded⟩ :=
  fromRangeFrom_roundtrip 1000 (by decide) (by decide)
